import Mathlib

/-!
# Verification of the rc_pilot feedback controller core

Shallow embedding of `src/feedback_controller.c` (arm/disarm state machine,
yaw-unwrapping state estimation, safety gates, compensator march, mixer
output and ESC clamping).  Doubles are modelled as exact rationals; the
external sensor, setpoint and configuration structs are explicit inputs.
External library routines that the file calls but that are not part of the
repository sources (the discrete filter library and the mixer) are modelled
from the specification and marked as such in their doc comments.
-/

/-- Axis indices VEC_THR..VEC_Y from fly_defs.h. -/
inductive Axis
  | THR
  | ROLL
  | PITCH
  | YAW
  | X
  | Y
deriving DecidableEq, Repr

/-- arm_state_t: the local arm state of the controller. -/
inductive ArmState
  | ARMED
  | DISARMED
deriving DecidableEq, Repr

/-- The system-wide run state returned by get_state(). -/
inductive RunState
  | UNINITIALIZED
  | RUNNING
  | PAUSED
  | EXITING
deriving DecidableEq, Repr

/-- Annunciator colors for set_led. -/
inductive LedColor
  | RED
  | GREEN
deriving DecidableEq, Repr

/-- Observable side effects other than ESC pulses: LED writes, log manager
start/stop, and printf warnings. -/
inductive Event
  | led (c : LedColor) (b : Bool)
  | logStart
  | logStop
  | warn
deriving DecidableEq, Repr

/-- The double constant PI from fly_defs.h: the IEEE double closest to pi. -/
def PI : ℚ := 884279719003555 / 281474976710656

/-- TWO_PI from fly_defs.h. -/
def TWO_PI : ℚ := 2 * PI

/-- C double-to-int conversion: truncation toward zero. -/
def dtoi (q : ℚ) : ℤ := Int.tdiv q.num (q.den : ℤ)

/-- Modelled from the spec: the d_filter_t SISO compensator of the external
filter library (missing from src/).  Numerator/denominator coefficients, a
delay line of past inputs and outputs, a mutable gain, an optional output
clamp and a sample-counted soft-start ramp. -/
structure DFilter where
  gain : ℚ
  num : List ℚ
  den : List ℚ
  xhist : List ℚ
  yhist : List ℚ
  sat_en : Bool
  sat_min : ℚ
  sat_max : ℚ
  soft_rem : ℕ
  soft_total : ℕ
deriving DecidableEq, Repr

/-- Modelled from the spec: saturate_double of the external robotics library
(missing from src/): clamp a value to [mn, mx], checking the upper bound
first as the library does. -/
def saturate_double (v mn mx : ℚ) : ℚ :=
  if v > mx then mx else if v < mn then mn else v

/-- Modelled from the spec: enable_saturation records the clamp window used
by subsequent marches. -/
def enable_saturation (D : DFilter) (mn mx : ℚ) : DFilter :=
  { D with sat_en := true, sat_min := mn, sat_max := mx }

/-- Modelled from the spec: reset_filter zeroes the delay line and re-arms
the soft-start ramp. -/
def reset_filter (D : DFilter) : DFilter :=
  { D with xhist := List.replicate D.xhist.length 0,
           yhist := List.replicate D.yhist.length 0,
           soft_rem := D.soft_total }

/-- Dot product of coefficient and delay-line lists. -/
def dot (a b : List ℚ) : ℚ :=
  ((a.zip b).map (fun p => p.1 * p.2)).sum

/-- Soft-start fraction: min 1 (t_since_enable / soft_start_time), counted
in samples. -/
def soft_frac (D : DFilter) : ℚ :=
  if D.soft_total = 0 then 1
  else min 1 (((D.soft_total - D.soft_rem : ℕ) : ℚ) / (D.soft_total : ℚ))

/-- Modelled from the spec: march_filter applies one sample of the
compensator at the current (soft-start scaled) gain, saturates the output
to [sat_min, sat_max] when saturation is enabled (anti-windup: the clamped
output is what enters the delay line), then updates the delay line. -/
def march_filter (D : DFilter) (err : ℚ) : DFilter × ℚ :=
  let xs := err :: D.xhist
  let raw := D.gain * soft_frac D * dot D.num xs - dot D.den D.yhist
  let y := if D.sat_en then saturate_double raw D.sat_min D.sat_max else raw
  ({ D with xhist := xs.take D.xhist.length,
            yhist := (y :: D.yhist).take D.yhist.length,
            soft_rem := D.soft_rem - 1 }, y)

/-- imu_data_t.fusedTaitBryan: the per-tick IMU attitude sample. -/
structure Imu where
  x : ℚ
  y : ℚ
  z : ℚ
deriving DecidableEq, Repr

/-- setpoint_t: targets and mode flags from the setpoint manager. -/
structure Setpoint where
  roll : ℚ
  pitch : ℚ
  yaw : ℚ
  yaw_rate : ℚ
  Z_throttle : ℚ
  X_throttle : ℚ
  Y_throttle : ℚ
  altitude : ℚ
  altitude_rate : ℚ
  en_rpy_ctrl : Bool
  en_alt_ctrl : Bool
  en_6dof : Bool
deriving DecidableEq, Repr

/-- cstate_t: the continuously updated vehicle state estimate.  m holds the
last written motor signals (written before the final ESC clamp). -/
structure CState where
  roll : ℚ
  pitch : ℚ
  yaw : ℚ
  alt : ℚ
  v_batt : ℚ
  m : List ℚ
deriving DecidableEq, Repr

/-- fly_settings_t: configuration fixed at initialization.  mix is the
platform mixing matrix (per axis, per rotor). -/
structure Settings where
  num_rotors : ℕ
  v_nominal : ℚ
  enable_logging : Bool
  mix : Axis → ℕ → ℚ

/-- Compile-time constants from fly_defs.h (missing from src/), kept
abstract, plus the cosine routine of the external math library modelled as
an oracle function. -/
structure Consts where
  TIP_ANGLE : ℚ
  MAX_ROLL_COMPONENT : ℚ
  MAX_PITCH_COMPONENT : ℚ
  MAX_YAW_COMPONENT : ℚ
  MAX_X_COMPONENT : ℚ
  MAX_Y_COMPONENT : ℚ
  MIN_THRUST_COMPONENT : ℚ
  MAX_THRUST_COMPONENT : ℚ
  DT : ℚ
  cos : ℚ → ℚ

/-- The module-level mutable state of feedback_controller.c: arm state, the
three compensators and their original gains, the yaw unwrapper state
(last_yaw is declared int in the source), the altitude-transition memory,
the control vector u and the loop counter. -/
structure CtrlState where
  arm_state : ArmState
  D_roll : DFilter
  D_pitch : DFilter
  D_yaw : DFilter
  D_roll_gain_orig : ℚ
  D_pitch_gain_orig : ℚ
  D_yaw_gain_orig : ℚ
  num_yaw_spins : ℤ
  last_yaw : ℤ
  last_alt_ctrl_en : Bool
  last_usr_thr : ℚ
  u : Axis → ℚ
  loop_index : ℕ
  last_arm_state : ArmState

/-- log_entry_t as filled in by feedback_controller (note the source swaps
u_X/u_Y when logging, and logs the pre-clamp motor values from cstate). -/
structure LogEntry where
  loop_index : ℕ
  alt : ℚ
  roll : ℚ
  pitch : ℚ
  yaw : ℚ
  vbatt : ℚ
  u_thr : ℚ
  u_roll : ℚ
  u_pitch : ℚ
  u_yaw : ℚ
  u_X : ℚ
  u_Y : ℚ
  mot_1 : ℚ
  mot_2 : ℚ
  mot_3 : ℚ
  mot_4 : ℚ
  mot_5 : ℚ
  mot_6 : ℚ
deriving DecidableEq, Repr

/-- Everything one call of feedback_controller produces: the new module
state, core state and (possibly yaw-mutated) setpoint, the ESC pulses sent
(channel, normalized value) in order, the LED/log/print side effects, the
trace of add_mixed_input calls (axis slot, input value), the log entry
passed to the log manager, and the C return value. -/
structure TickOut where
  st : CtrlState
  cs : CState
  sp : Setpoint
  esc : List (ℕ × ℚ)
  events : List Event
  mixCalls : List (Axis × ℚ)
  log : Option LogEntry
  ret : ℤ

/-- Functional update of the control vector u at one axis. -/
def setu (u : Axis → ℚ) (a : Axis) (v : ℚ) : Axis → ℚ :=
  fun b => if b = a then v else u b

/-- Modelled from the spec: add_mixed_input of the mixer (missing from
src/): add u times the mixing-matrix column of the axis to every motor. -/
def add_mixed_input (M : Axis → ℕ → ℚ) (u : ℚ) (ax : Axis) (mot : List ℚ) : List ℚ :=
  (List.range mot.length).map (fun i => mot.getD i 0 + u * M ax i)

/-- Stand-in for DBL_MAX in the mixer headroom computation. -/
def DBL_BIG : ℚ := 10 ^ 18

/-- One rotor's contribution to the feasible-interval fold of
check_channel_saturation: tighten the accumulated interval so that the
motor stays within [0, 1]. -/
def chan_bounds_step (c m : ℚ) (acc : ℚ × ℚ) : ℚ × ℚ :=
  if c > 0 then (max acc.1 ((0 - m) / c), min acc.2 ((1 - m) / c))
  else if c < 0 then (max acc.1 ((1 - m) / c), min acc.2 ((0 - m) / c))
  else acc

/-- Modelled from the spec: check_channel_saturation of the mixer (missing
from src/): given the partial motor vector, the exact interval of inputs u
that keeps every motor in [0, 1] when added through this axis. -/
def check_channel_saturation (M : Axis → ℕ → ℚ) (ax : Axis) (mot : List ℚ) : ℚ × ℚ :=
  (List.range mot.length).foldl
    (fun acc i => chan_bounds_step (M ax i) (mot.getD i 0) acc) (-DBL_BIG, DBL_BIG)

/-- set_motors_to_idle: send the idle-awake pulse -0.1 to ESC channels
1..num_rotors; error out (sending nothing) when num_rotors exceeds 8. -/
def set_motors_to_idle (set : Settings) : List (ℕ × ℚ) × ℤ :=
  if 8 < set.num_rotors then ([], -1)
  else ((List.range set.num_rotors).map (fun i => (i + 1, (-(1/10) : ℚ))), 0)

/-- The LED and log-manager effects of disarm_controller, in call order. -/
def disarm_events : List Event :=
  [Event.led LedColor.RED true, Event.led LedColor.GREEN false, Event.logStop]

/-- disarm_controller: flag DISARMED, red on, green off, stop the log. -/
def disarm_controller (st : CtrlState) : CtrlState × List Event :=
  ({ st with arm_state := ArmState.DISARMED }, disarm_events)

/-- zero_out_controller: reset the three compensators, re-initialize the
altitude-transition memory, and zero the yaw unwrapper (last_yaw takes the
negated IMU yaw, truncated by the int declaration of last_yaw). -/
def zero_out_controller (k : Consts) (st : CtrlState) (imu : Imu) : CtrlState :=
  { st with D_roll := reset_filter st.D_roll,
            D_pitch := reset_filter st.D_pitch,
            D_yaw := reset_filter st.D_yaw,
            last_alt_ctrl_en := false,
            last_usr_thr := k.MIN_THRUST_COMPONENT,
            num_yaw_spins := 0,
            last_yaw := dtoi (-imu.z) }

/-- arm_controller: warn and no-op (returning -1) when already armed;
otherwise start the log (if logging is enabled), zero the controllers, set
the annunciators and flag ARMED, returning 0. -/
def arm_controller (set : Settings) (k : Consts) (st : CtrlState) (imu : Imu) :
    CtrlState × List Event × ℤ :=
  if st.arm_state = ArmState.ARMED then (st, [Event.warn], -1)
  else
    ({ zero_out_controller k st imu with arm_state := ArmState.ARMED },
     (if set.enable_logging then [Event.logStart] else []) ++
       [Event.led LedColor.RED false, Event.led LedColor.GREEN true],
     0)

/-- The spin count after the crossover detection of lines 203-206: tmp is
the negated IMU yaw offset by the current spin count, compared against the
int-valued last_yaw. -/
def est_spins (st : CtrlState) (imu : Imu) : ℤ :=
  let tmp := -imu.z + (st.num_yaw_spins : ℚ) * TWO_PI
  if tmp - (st.last_yaw : ℚ) < -PI then st.num_yaw_spins + 1
  else if tmp - (st.last_yaw : ℚ) > PI then st.num_yaw_spins - 1
  else st.num_yaw_spins

/-- The yaw written to core state at line 208 of the source: the source
uses the raw IMU yaw without the NED sign flip that the comment and the
tmp computation use. -/
def est_yaw (st : CtrlState) (imu : Imu) : ℚ :=
  imu.z + (est_spins st imu : ℚ) * TWO_PI

/-- Core state after the state-estimation phase: roll and pitch take the
axis-swapped IMU samples, yaw the unwrapped value of est_yaw. -/
def est_cs (st : CtrlState) (cs : CState) (imu : Imu) : CState :=
  { cs with roll := imu.y, pitch := imu.x, yaw := est_yaw st imu }

/-- Controller state after the state-estimation phase: the new spin count,
and last_yaw updated to the published yaw truncated to int. -/
def est_st (st : CtrlState) (imu : Imu) : CtrlState :=
  { st with num_yaw_spins := est_spins st imu,
            last_yaw := dtoi (est_yaw st imu) }

/-- The throttle input of lines 276-278: tilt-compensated Z throttle,
clamped by saturate_double over the inverted interval
[-MIN_THRUST_COMPONENT, -MAX_THRUST_COMPONENT] exactly as the source
writes it. -/
def thr_u (k : Consts) (cs : CState) (sp : Setpoint) : ℚ :=
  saturate_double (sp.Z_throttle / (k.cos cs.roll * k.cos cs.pitch))
    (-k.MIN_THRUST_COMPONENT) (-k.MAX_THRUST_COMPONENT)

/-- Motor vector after the throttle contribution (lines 244 and 279). -/
def thr_mot (set : Settings) (k : Consts) (cs : CState) (sp : Setpoint) : List ℚ :=
  add_mixed_input set.mix (thr_u k cs sp) Axis.THR (List.replicate set.num_rotors 0)

/-- Control vector after the throttle write u[VEC_THR] := thr_u. -/
def u_after_thr (k : Consts) (st : CtrlState) (cs : CState) (sp : Setpoint) : Axis → ℚ :=
  setu st.u Axis.THR (thr_u k cs sp)

/-- Result of the roll/pitch/yaw section: motor vector, control vector,
mixer-call trace, marched compensators and the (possibly integrated) yaw
setpoint. -/
structure RpyOut where
  mot : List ℚ
  u : Axis → ℚ
  calls : List (Axis × ℚ)
  D_roll : DFilter
  D_pitch : DFilter
  D_yaw : DFilter
  spYaw : ℚ

/-- Lines 287-322: when en_rpy_ctrl is set, for roll, pitch then yaw: take
the channel headroom, clamp it to the per-axis component limit, arm the
compensator's saturation, rescale its gain by v_nominal/v_batt, march it on
the axis error (for yaw after integrating the yaw-rate setpoint), and add
the output to the mix; otherwise zero u[ROLL..YAW]. -/
def rpy_march (set : Settings) (k : Consts) (st : CtrlState) (cs : CState) (sp : Setpoint)
    (mot : List ℚ) (u : Axis → ℚ) (calls : List (Axis × ℚ)) : RpyOut :=
  if sp.en_rpy_ctrl then
    let bR := check_channel_saturation set.mix Axis.ROLL mot
    let mxR := if bR.2 > k.MAX_ROLL_COMPONENT then k.MAX_ROLL_COMPONENT else bR.2
    let mnR := if bR.1 < -k.MAX_ROLL_COMPONENT then -k.MAX_ROLL_COMPONENT else bR.1
    let DR := { enable_saturation st.D_roll mnR mxR with
                  gain := st.D_roll_gain_orig * set.v_nominal / cs.v_batt }
    let pR := march_filter DR (sp.roll - cs.roll)
    let motR := add_mixed_input set.mix pR.2 Axis.ROLL mot
    let bP := check_channel_saturation set.mix Axis.PITCH motR
    let mxP := if bP.2 > k.MAX_PITCH_COMPONENT then k.MAX_PITCH_COMPONENT else bP.2
    let mnP := if bP.1 < -k.MAX_PITCH_COMPONENT then -k.MAX_PITCH_COMPONENT else bP.1
    let DP := { enable_saturation st.D_pitch mnP mxP with
                  gain := st.D_pitch_gain_orig * set.v_nominal / cs.v_batt }
    let pP := march_filter DP (sp.pitch - cs.pitch)
    let motP := add_mixed_input set.mix pP.2 Axis.PITCH motR
    let spYaw := sp.yaw + k.DT * sp.yaw_rate
    let bY := check_channel_saturation set.mix Axis.YAW motP
    let mxY := if bY.2 > k.MAX_YAW_COMPONENT then k.MAX_YAW_COMPONENT else bY.2
    let mnY := if bY.1 < -k.MAX_YAW_COMPONENT then -k.MAX_YAW_COMPONENT else bY.1
    let DY := { enable_saturation st.D_yaw mnY mxY with
                  gain := st.D_yaw_gain_orig * set.v_nominal / cs.v_batt }
    let pY := march_filter DY (spYaw - cs.yaw)
    let motY := add_mixed_input set.mix pY.2 Axis.YAW motP
    { mot := motY,
      u := setu (setu (setu u Axis.ROLL pR.2) Axis.PITCH pP.2) Axis.YAW pY.2,
      calls := calls ++ [(Axis.ROLL, pR.2), (Axis.PITCH, pP.2), (Axis.YAW, pY.2)],
      D_roll := pR.1, D_pitch := pP.1, D_yaw := pY.1, spYaw := spYaw }
  else
    { mot := mot,
      u := setu (setu (setu u Axis.ROLL 0) Axis.PITCH 0) Axis.YAW 0,
      calls := calls,
      D_roll := st.D_roll, D_pitch := st.D_pitch, D_yaw := st.D_yaw, spYaw := sp.yaw }

/-- Lines 328-335: the first lateral input u[VEC_Y] is taken from
sp.X_throttle and clamped by the VEC_Y headroom intersected with
MAX_X_COMPONENT. -/
def sixdof_uY (set : Settings) (k : Consts) (sp : Setpoint) (mot : List ℚ) : ℚ :=
  let b := check_channel_saturation set.mix Axis.Y mot
  let mx := if b.2 > k.MAX_X_COMPONENT then k.MAX_X_COMPONENT else b.2
  let mn := if b.1 < -k.MAX_X_COMPONENT then -k.MAX_X_COMPONENT else b.1
  saturate_double sp.X_throttle mn mx

/-- Lines 337-342: the second lateral input u[VEC_X] is taken from
sp.Y_throttle and clamped by the VEC_X headroom intersected with
MAX_Y_COMPONENT. -/
def sixdof_uX (set : Settings) (k : Consts) (sp : Setpoint) (mot : List ℚ) : ℚ :=
  let b := check_channel_saturation set.mix Axis.X mot
  let mx := if b.2 > k.MAX_Y_COMPONENT then k.MAX_Y_COMPONENT else b.2
  let mn := if b.1 < -k.MAX_Y_COMPONENT then -k.MAX_Y_COMPONENT else b.1
  saturate_double sp.Y_throttle mn mx

/-- Result of the 6dof lateral section. -/
structure SixOut where
  mot : List ℚ
  u : Axis → ℚ
  calls : List (Axis × ℚ)

/-- Lines 327-349: when en_6dof is set, mix the first lateral input through
axis slot VEC_Y, then mix the second lateral input u[VEC_X] through axis
slot VEC_Y as well (as the source writes at line 344); otherwise zero
u[VEC_Y] and u[VEC_X]. -/
def sixdof_march (set : Settings) (k : Consts) (sp : Setpoint)
    (mot : List ℚ) (u : Axis → ℚ) (calls : List (Axis × ℚ)) : SixOut :=
  if sp.en_6dof then
    let uY := sixdof_uY set k sp mot
    let mot1 := add_mixed_input set.mix uY Axis.Y mot
    let uX := sixdof_uX set k sp mot1
    { mot := add_mixed_input set.mix uX Axis.Y mot1,
      u := setu (setu u Axis.Y uY) Axis.X uX,
      calls := calls ++ [(Axis.Y, uY), (Axis.Y, uX)] }
  else
    { mot := mot, u := setu (setu u Axis.Y 0) Axis.X 0, calls := calls }

/-- The roll/pitch/yaw section applied after the throttle section. -/
def pre6dof (set : Settings) (k : Consts) (st : CtrlState) (cs : CState) (sp : Setpoint) :
    RpyOut :=
  rpy_march set k st cs sp (thr_mot set k cs sp) (u_after_thr k st cs sp)
    [(Axis.THR, thr_u k cs sp)]

/-- Combined result of the whole control march (phase 3). -/
structure MarchOut where
  mot : List ℚ
  u : Axis → ℚ
  calls : List (Axis × ℚ)
  D_roll : DFilter
  D_pitch : DFilter
  D_yaw : DFilter
  spYaw : ℚ

/-- Phase 3 of the tick: throttle, then roll/pitch/yaw, then 6dof. -/
def march_all (set : Settings) (k : Consts) (st : CtrlState) (cs : CState) (sp : Setpoint) :
    MarchOut :=
  let r := pre6dof set k st cs sp
  let s := sixdof_march set k sp r.mot r.u r.calls
  { mot := s.mot, u := s.u, calls := s.calls,
    D_roll := r.D_roll, D_pitch := r.D_pitch, D_yaw := r.D_yaw, spYaw := r.spYaw }

/-- The log entry of lines 366-385 (note u_X logs u[VEC_Y] and u_Y logs
u[VEC_X], and the motor fields log the pre-clamp cstate values). -/
def build_log (st : CtrlState) (cs : CState) (uF : Axis → ℚ) (mNew : List ℚ) : LogEntry :=
  { loop_index := st.loop_index, alt := cs.alt, roll := cs.roll, pitch := cs.pitch,
    yaw := cs.yaw, vbatt := cs.v_batt,
    u_thr := uF Axis.THR, u_roll := uF Axis.ROLL, u_pitch := uF Axis.PITCH,
    u_yaw := uF Axis.YAW, u_X := uF Axis.Y, u_Y := uF Axis.X,
    mot_1 := mNew.getD 0 0, mot_2 := mNew.getD 1 0, mot_3 := mNew.getD 2 0,
    mot_4 := mNew.getD 3 0, mot_5 := mNew.getD 4 0, mot_6 := mNew.getD 5 0 }

/-- Phases 3-5 of an armed-and-running tick: march the controllers, write
the motor signals to cstate before the final saturation, clamp each to
[0, 1] as the very last step before sending it to ESC channel i+1, log if
enabled, and advance loop_index. -/
def armed_march (set : Settings) (k : Consts) (st : CtrlState) (cs : CState) (sp : Setpoint) :
    TickOut :=
  let mo := march_all set k st cs sp
  let mNew := mo.mot ++ cs.m.drop set.num_rotors
  let csOut := { cs with m := mNew }
  { st := { st with u := mo.u, D_roll := mo.D_roll, D_pitch := mo.D_pitch,
                    D_yaw := mo.D_yaw, last_usr_thr := sp.Z_throttle,
                    last_alt_ctrl_en := false, loop_index := st.loop_index + 1 },
    cs := csOut,
    sp := { sp with yaw := mo.spYaw },
    esc := (List.range set.num_rotors).map
      (fun i => (i + 1, saturate_double (mo.mot.getD i 0) 0 1)),
    events := [],
    mixCalls := mo.calls,
    log := if set.enable_logging then some (build_log st csOut mo.u mNew) else none,
    ret := 0 }

/-- feedback_controller: one tick of the ISR loop.  Phase 1 state
estimation always runs; then the pause gate may disarm, the tipover gate
may disarm+idle+return, the idle gate may idle+return, and otherwise the
armed control march runs. -/
def feedback_controller (set : Settings) (k : Consts) (rs : RunState)
    (st : CtrlState) (cs : CState) (sp : Setpoint) (imu : Imu) : TickOut :=
  let cs2 := est_cs st cs imu
  let st1 := est_st st imu
  let p1 :=
    if rs ≠ RunState.RUNNING ∧ st1.arm_state = ArmState.ARMED then
      let d := disarm_controller st1
      ({ d.1 with last_arm_state := ArmState.DISARMED }, d.2)
    else (st1, ([] : List Event))
  let st2 := p1.1
  let ev2 := p1.2
  if |cs2.roll| > k.TIP_ANGLE ∨ |cs2.pitch| > k.TIP_ANGLE then
    let d := disarm_controller st2
    { st := { d.1 with last_arm_state := ArmState.DISARMED }, cs := cs2, sp := sp,
      esc := (set_motors_to_idle set).1, events := ev2 ++ d.2 ++ [Event.warn],
      mixCalls := [], log := none, ret := 0 }
  else if rs ≠ RunState.RUNNING ∨ st2.arm_state = ArmState.DISARMED then
    { st := st2, cs := cs2, sp := sp, esc := (set_motors_to_idle set).1,
      events := ev2, mixCalls := [], log := none, ret := 0 }
  else
    armed_march set k st2 cs2 sp

/-! ## Concrete instances used by the witnesses and counterexamples -/

/-- A concrete first-order compensator for the instances below. -/
def d0 : DFilter :=
  { gain := 1, num := [1], den := [], xhist := [0], yhist := [0],
    sat_en := false, sat_min := 0, sat_max := 0, soft_rem := 0, soft_total := 0 }

/-- A concrete mixing matrix: throttle drives both rotors with share -2,
all other axes with share 1. -/
def mix0 : Axis → ℕ → ℚ :=
  fun ax _ => match ax with
    | Axis.THR => -2
    | _ => 1

/-- Concrete settings: a 2-rotor craft at 11.1 V nominal, logging off. -/
def set0 : Settings :=
  { num_rotors := 2, v_nominal := 111/10, enable_logging := false, mix := mix0 }

/-- Concrete constants; the cosine oracle is evaluated only at 0 in the
instances, where cos 0 = 1. -/
def k0 : Consts :=
  { TIP_ANGLE := 1, MAX_ROLL_COMPONENT := 1, MAX_PITCH_COMPONENT := 1,
    MAX_YAW_COMPONENT := 1, MAX_X_COMPONENT := 1, MAX_Y_COMPONENT := 1,
    MIN_THRUST_COMPONENT := 0, MAX_THRUST_COMPONENT := 1, DT := 1/200,
    cos := fun _ => 1 }

/-- A concrete armed controller state. -/
def st0 : CtrlState :=
  { arm_state := ArmState.ARMED, D_roll := d0, D_pitch := d0, D_yaw := d0,
    D_roll_gain_orig := 3, D_pitch_gain_orig := 5, D_yaw_gain_orig := 7,
    num_yaw_spins := 0, last_yaw := 0, last_alt_ctrl_en := false,
    last_usr_thr := 0, u := fun _ => 0, loop_index := 5,
    last_arm_state := ArmState.ARMED }

/-- The same state, disarmed. -/
def stD : CtrlState := { st0 with arm_state := ArmState.DISARMED }

/-- Disarmed state with the unwrapper reset at IMU yaw 1. -/
def stD1 : CtrlState := { stD with last_yaw := -1 }

/-- Disarmed state with the unwrapper reset at IMU yaw 3. -/
def stD3 : CtrlState := { stD with last_yaw := -3 }

/-- A concrete level core state at nominal battery voltage. -/
def cs0 : CState :=
  { roll := 0, pitch := 0, yaw := 0, alt := 0, v_batt := 111/10,
    m := List.replicate 8 0 }

/-- Core state at half the nominal battery voltage. -/
def csHalf : CState := { cs0 with v_batt := 111/20 }

/-- A concrete setpoint with every mode flag off. -/
def sp0 : Setpoint :=
  { roll := 0, pitch := 0, yaw := 0, yaw_rate := 0, Z_throttle := -(1/2),
    X_throttle := 3/10, Y_throttle := -(1/5), altitude := 0,
    altitude_rate := 0, en_rpy_ctrl := false, en_alt_ctrl := false,
    en_6dof := false }

/-- Setpoint with attitude control enabled. -/
def spR : Setpoint := { sp0 with en_rpy_ctrl := true }

/-- Setpoint with 6dof lateral control enabled. -/
def sp6 : Setpoint := { sp0 with en_6dof := true }

/-- A level IMU sample. -/
def imu0 : Imu := { x := 0, y := 0, z := 0 }

/-- Level IMU sample with yaw 1. -/
def imu1 : Imu := { x := 0, y := 0, z := 1 }

/-- Level IMU sample with yaw 3. -/
def imu3 : Imu := { x := 0, y := 0, z := 3 }

/-- A tipped-over IMU sample: roll (the y component) far beyond TIP_ANGLE. -/
def imuTip : Imu := { x := 0, y := 5, z := 0 }

/-! ## Helper lemmas -/

@[simp] lemma est_st_arm_state (st : CtrlState) (imu : Imu) :
    (est_st st imu).arm_state = st.arm_state := rfl

@[simp] lemma est_st_loop_index (st : CtrlState) (imu : Imu) :
    (est_st st imu).loop_index = st.loop_index := rfl

@[simp] lemma est_st_D_roll (st : CtrlState) (imu : Imu) :
    (est_st st imu).D_roll = st.D_roll := rfl

@[simp] lemma est_st_D_pitch (st : CtrlState) (imu : Imu) :
    (est_st st imu).D_pitch = st.D_pitch := rfl

@[simp] lemma est_st_D_yaw (st : CtrlState) (imu : Imu) :
    (est_st st imu).D_yaw = st.D_yaw := rfl

@[simp] lemma est_cs_roll (st : CtrlState) (cs : CState) (imu : Imu) :
    (est_cs st cs imu).roll = imu.y := rfl

@[simp] lemma est_cs_pitch (st : CtrlState) (cs : CState) (imu : Imu) :
    (est_cs st cs imu).pitch = imu.x := rfl

@[simp] lemma est_cs_v_batt (st : CtrlState) (cs : CState) (imu : Imu) :
    (est_cs st cs imu).v_batt = cs.v_batt := rfl

lemma tick_run_armed (set : Settings) (k : Consts) (st : CtrlState) (cs : CState)
    (sp : Setpoint) (imu : Imu) (harm : st.arm_state = ArmState.ARMED)
    (h1 : ¬ |imu.y| > k.TIP_ANGLE) (h2 : ¬ |imu.x| > k.TIP_ANGLE) :
    feedback_controller set k RunState.RUNNING st cs sp imu =
      armed_march set k (est_st st imu) (est_cs st cs imu) sp := by
  simp [feedback_controller, h1, h2, harm]

lemma tick_disarmed (set : Settings) (k : Consts) (rs : RunState) (st : CtrlState)
    (cs : CState) (sp : Setpoint) (imu : Imu)
    (harm : st.arm_state = ArmState.DISARMED)
    (h1 : ¬ |imu.y| > k.TIP_ANGLE) (h2 : ¬ |imu.x| > k.TIP_ANGLE) :
    feedback_controller set k rs st cs sp imu =
      { st := est_st st imu, cs := est_cs st cs imu, sp := sp,
        esc := (set_motors_to_idle set).1, events := [], mixCalls := [],
        log := none, ret := 0 } := by
  simp [feedback_controller, h1, h2, harm]

lemma tick_paused_armed (set : Settings) (k : Consts) (rs : RunState) (st : CtrlState)
    (cs : CState) (sp : Setpoint) (imu : Imu)
    (hrs : rs ≠ RunState.RUNNING) (harm : st.arm_state = ArmState.ARMED)
    (h1 : ¬ |imu.y| > k.TIP_ANGLE) (h2 : ¬ |imu.x| > k.TIP_ANGLE) :
    feedback_controller set k rs st cs sp imu =
      { st := { est_st st imu with
                  arm_state := ArmState.DISARMED,
                  last_arm_state := ArmState.DISARMED },
        cs := est_cs st cs imu, sp := sp, esc := (set_motors_to_idle set).1,
        events := disarm_events, mixCalls := [], log := none, ret := 0 } := by
  simp [feedback_controller, disarm_controller, h1, h2, harm, hrs]

lemma tick_tip_no_pause (set : Settings) (k : Consts) (rs : RunState) (st : CtrlState)
    (cs : CState) (sp : Setpoint) (imu : Imu)
    (hg : ¬ (rs ≠ RunState.RUNNING ∧ st.arm_state = ArmState.ARMED))
    (htip : |imu.y| > k.TIP_ANGLE ∨ |imu.x| > k.TIP_ANGLE) :
    feedback_controller set k rs st cs sp imu =
      { st := { est_st st imu with
                  arm_state := ArmState.DISARMED,
                  last_arm_state := ArmState.DISARMED },
        cs := est_cs st cs imu, sp := sp, esc := (set_motors_to_idle set).1,
        events := disarm_events ++ [Event.warn], mixCalls := [], log := none,
        ret := 0 } := by
  simp [feedback_controller, disarm_controller, hg, htip]

lemma tick_tip_pause (set : Settings) (k : Consts) (rs : RunState) (st : CtrlState)
    (cs : CState) (sp : Setpoint) (imu : Imu)
    (hrs : rs ≠ RunState.RUNNING) (harm : st.arm_state = ArmState.ARMED)
    (htip : |imu.y| > k.TIP_ANGLE ∨ |imu.x| > k.TIP_ANGLE) :
    feedback_controller set k rs st cs sp imu =
      { st := { est_st st imu with
                  arm_state := ArmState.DISARMED,
                  last_arm_state := ArmState.DISARMED },
        cs := est_cs st cs imu, sp := sp, esc := (set_motors_to_idle set).1,
        events := disarm_events ++ disarm_events ++ [Event.warn], mixCalls := [],
        log := none, ret := 0 } := by
  simp [feedback_controller, disarm_controller, hrs, harm, htip]

@[simp] lemma armed_march_esc (set : Settings) (k : Consts) (st : CtrlState)
    (cs : CState) (sp : Setpoint) :
    (armed_march set k st cs sp).esc =
      (List.range set.num_rotors).map
        (fun i => (i + 1, saturate_double ((march_all set k st cs sp).mot.getD i 0) 0 1)) := rfl

@[simp] lemma armed_march_cs_m (set : Settings) (k : Consts) (st : CtrlState)
    (cs : CState) (sp : Setpoint) :
    (armed_march set k st cs sp).cs.m =
      (march_all set k st cs sp).mot ++ cs.m.drop set.num_rotors := rfl

@[simp] lemma armed_march_st_u (set : Settings) (k : Consts) (st : CtrlState)
    (cs : CState) (sp : Setpoint) :
    (armed_march set k st cs sp).st.u = (march_all set k st cs sp).u := rfl

@[simp] lemma armed_march_mixCalls (set : Settings) (k : Consts) (st : CtrlState)
    (cs : CState) (sp : Setpoint) :
    (armed_march set k st cs sp).mixCalls = (march_all set k st cs sp).calls := rfl

@[simp] lemma armed_march_loop_index (set : Settings) (k : Consts) (st : CtrlState)
    (cs : CState) (sp : Setpoint) :
    (armed_march set k st cs sp).st.loop_index = st.loop_index + 1 := rfl

@[simp] lemma armed_march_st_D_roll (set : Settings) (k : Consts) (st : CtrlState)
    (cs : CState) (sp : Setpoint) :
    (armed_march set k st cs sp).st.D_roll = (march_all set k st cs sp).D_roll := rfl

@[simp] lemma armed_march_st_D_pitch (set : Settings) (k : Consts) (st : CtrlState)
    (cs : CState) (sp : Setpoint) :
    (armed_march set k st cs sp).st.D_pitch = (march_all set k st cs sp).D_pitch := rfl

@[simp] lemma armed_march_st_D_yaw (set : Settings) (k : Consts) (st : CtrlState)
    (cs : CState) (sp : Setpoint) :
    (armed_march set k st cs sp).st.D_yaw = (march_all set k st cs sp).D_yaw := rfl

@[simp] lemma march_all_D_roll (set : Settings) (k : Consts) (st : CtrlState)
    (cs : CState) (sp : Setpoint) :
    (march_all set k st cs sp).D_roll = (pre6dof set k st cs sp).D_roll := rfl

@[simp] lemma march_all_D_pitch (set : Settings) (k : Consts) (st : CtrlState)
    (cs : CState) (sp : Setpoint) :
    (march_all set k st cs sp).D_pitch = (pre6dof set k st cs sp).D_pitch := rfl

@[simp] lemma march_all_D_yaw (set : Settings) (k : Consts) (st : CtrlState)
    (cs : CState) (sp : Setpoint) :
    (march_all set k st cs sp).D_yaw = (pre6dof set k st cs sp).D_yaw := rfl

@[simp] lemma march_all_u (set : Settings) (k : Consts) (st : CtrlState)
    (cs : CState) (sp : Setpoint) :
    (march_all set k st cs sp).u =
      (sixdof_march set k sp (pre6dof set k st cs sp).mot (pre6dof set k st cs sp).u
        (pre6dof set k st cs sp).calls).u := rfl

@[simp] lemma march_all_calls (set : Settings) (k : Consts) (st : CtrlState)
    (cs : CState) (sp : Setpoint) :
    (march_all set k st cs sp).calls =
      (sixdof_march set k sp (pre6dof set k st cs sp).mot (pre6dof set k st cs sp).u
        (pre6dof set k st cs sp).calls).calls := rfl

@[simp] lemma add_mixed_input_length (M : Axis → ℕ → ℚ) (u : ℚ) (ax : Axis)
    (mot : List ℚ) : (add_mixed_input M u ax mot).length = mot.length := by
  simp [add_mixed_input]

lemma rpy_march_mot_length (set : Settings) (k : Consts) (st : CtrlState) (cs : CState)
    (sp : Setpoint) (mot : List ℚ) (u : Axis → ℚ) (calls : List (Axis × ℚ)) :
    (rpy_march set k st cs sp mot u calls).mot.length = mot.length := by
  cases h : sp.en_rpy_ctrl <;> simp [rpy_march, h]

lemma sixdof_march_mot_length (set : Settings) (k : Consts) (sp : Setpoint)
    (mot : List ℚ) (u : Axis → ℚ) (calls : List (Axis × ℚ)) :
    (sixdof_march set k sp mot u calls).mot.length = mot.length := by
  cases h : sp.en_6dof <;> simp [sixdof_march, h]

lemma thr_mot_length (set : Settings) (k : Consts) (cs : CState) (sp : Setpoint) :
    (thr_mot set k cs sp).length = set.num_rotors := by
  simp [thr_mot]

lemma pre6dof_mot_length (set : Settings) (k : Consts) (st : CtrlState) (cs : CState)
    (sp : Setpoint) : (pre6dof set k st cs sp).mot.length = set.num_rotors := by
  rw [pre6dof, rpy_march_mot_length, thr_mot_length]

lemma march_all_mot_length (set : Settings) (k : Consts) (st : CtrlState) (cs : CState)
    (sp : Setpoint) : (march_all set k st cs sp).mot.length = set.num_rotors := by
  show (sixdof_march set k sp (pre6dof set k st cs sp).mot (pre6dof set k st cs sp).u
    (pre6dof set k st cs sp).calls).mot.length = set.num_rotors
  rw [sixdof_march_mot_length, pre6dof_mot_length]

lemma saturate_double_mem (v mn mx : ℚ) (h : mn ≤ mx) :
    mn ≤ saturate_double v mn mx ∧ saturate_double v mn mx ≤ mx := by
  unfold saturate_double
  split_ifs with h1 h2 <;> constructor <;> linarith

lemma getD_range_map {α : Type} (f : ℕ → α) (n i : ℕ) (hi : i < n) (d : α) :
    ((List.range n).map f).getD i d = f i := by
  have h : i < ((List.range n).map f).length := by simpa using hi
  rw [List.getD_eq_getElem _ _ h, List.getElem_map, List.getElem_range]

lemma getD_append_left {α : Type} (l l' : List α) (i : ℕ) (d : α) (h : i < l.length) :
    (l ++ l').getD i d = l.getD i d := by
  have h' : i < (l ++ l').length := by simp; omega
  rw [List.getD_eq_getElem _ _ h', List.getD_eq_getElem _ _ h,
    List.getElem_append_left]

lemma set_motors_idle_esc (set : Settings) (hn : set.num_rotors ≤ 8) :
    (set_motors_to_idle set).1 =
      (List.range set.num_rotors).map (fun i => (i + 1, (-(1/10) : ℚ))) := by
  simp [set_motors_to_idle, Nat.not_lt.mpr hn]

lemma pre6dof_D_roll_gain (set : Settings) (k : Consts) (st : CtrlState) (cs : CState)
    (sp : Setpoint) (h : sp.en_rpy_ctrl = true) :
    (pre6dof set k st cs sp).D_roll.gain =
      st.D_roll_gain_orig * set.v_nominal / cs.v_batt := by
  simp [pre6dof, rpy_march, h, march_filter, enable_saturation]

lemma pre6dof_D_pitch_gain (set : Settings) (k : Consts) (st : CtrlState) (cs : CState)
    (sp : Setpoint) (h : sp.en_rpy_ctrl = true) :
    (pre6dof set k st cs sp).D_pitch.gain =
      st.D_pitch_gain_orig * set.v_nominal / cs.v_batt := by
  simp [pre6dof, rpy_march, h, march_filter, enable_saturation]

lemma pre6dof_D_yaw_gain (set : Settings) (k : Consts) (st : CtrlState) (cs : CState)
    (sp : Setpoint) (h : sp.en_rpy_ctrl = true) :
    (pre6dof set k st cs sp).D_yaw.gain =
      st.D_yaw_gain_orig * set.v_nominal / cs.v_batt := by
  simp [pre6dof, rpy_march, h, march_filter, enable_saturation]

lemma pre6dof_calls_fst (set : Settings) (k : Consts) (st : CtrlState) (cs : CState)
    (sp : Setpoint) :
    (pre6dof set k st cs sp).calls.map Prod.fst =
      Axis.THR :: (if sp.en_rpy_ctrl then [Axis.ROLL, Axis.PITCH, Axis.YAW] else []) := by
  cases h : sp.en_rpy_ctrl <;> simp [pre6dof, rpy_march, h]

/-! ## Claims -/

/-- C1: For every tick that starts DISARMED or with the run state not
RUNNING, with no tipover and a legal rotor count, the ESC commands sent
during the tick are exactly the idle pulse -0.1, once to each channel
1..num_rotors, and nothing else. -/
theorem C1_idle_pulse_when_not_flying (set : Settings) (k : Consts) (rs : RunState)
    (st : CtrlState) (cs : CState) (sp : Setpoint) (imu : Imu)
    (hn : set.num_rotors ≤ 8)
    (hcond : st.arm_state = ArmState.DISARMED ∨ rs ≠ RunState.RUNNING)
    (h1 : ¬ |imu.y| > k.TIP_ANGLE) (h2 : ¬ |imu.x| > k.TIP_ANGLE) :
    (feedback_controller set k rs st cs sp imu).esc =
      (List.range set.num_rotors).map (fun i => (i + 1, (-(1/10) : ℚ))) := by
  have hidle := set_motors_idle_esc set hn
  rcases hcond with harm | hrs
  · rw [tick_disarmed set k rs st cs sp imu harm h1 h2]
    exact hidle
  · cases hA : st.arm_state with
    | ARMED =>
        rw [tick_paused_armed set k rs st cs sp imu hrs hA h1 h2]
        exact hidle
    | DISARMED =>
        rw [tick_disarmed set k rs st cs sp imu hA h1 h2]
        exact hidle

/-- C1 witness: a concrete disarmed two-rotor tick sends exactly the idle
pulses to channels 1 and 2. -/
theorem C1_idle_pulse_when_not_flying_witness :
    (feedback_controller set0 k0 RunState.RUNNING stD cs0 sp0 imu0).esc =
      [(1, (-(1/10) : ℚ)), (2, (-(1/10) : ℚ))] :=
  (C1_idle_pulse_when_not_flying set0 k0 RunState.RUNNING stD cs0 sp0 imu0
    (by norm_num [set0]) (Or.inl rfl)
    (by norm_num [imu0, k0]) (by norm_num [imu0, k0])).trans
    (by norm_num [set0, List.range_succ])

/-- C2: On a tick whose freshly estimated roll or pitch magnitude exceeds
TIP_ANGLE, the tick ends DISARMED, commands the idle pulse to every rotor,
returns 0, and runs no further control phase (loop_index, the three
compensators, the mixer-call trace and the log are untouched). -/
theorem C2_tipover_disarms_and_idles (set : Settings) (k : Consts) (rs : RunState)
    (st : CtrlState) (cs : CState) (sp : Setpoint) (imu : Imu)
    (hn : set.num_rotors ≤ 8)
    (htip : |imu.y| > k.TIP_ANGLE ∨ |imu.x| > k.TIP_ANGLE) :
    (feedback_controller set k rs st cs sp imu).st.arm_state = ArmState.DISARMED ∧
    (feedback_controller set k rs st cs sp imu).esc =
      (List.range set.num_rotors).map (fun i => (i + 1, (-(1/10) : ℚ))) ∧
    (feedback_controller set k rs st cs sp imu).ret = 0 ∧
    (feedback_controller set k rs st cs sp imu).st.loop_index = st.loop_index ∧
    (feedback_controller set k rs st cs sp imu).mixCalls = [] ∧
    (feedback_controller set k rs st cs sp imu).log = none ∧
    (feedback_controller set k rs st cs sp imu).st.D_roll = st.D_roll ∧
    (feedback_controller set k rs st cs sp imu).st.D_pitch = st.D_pitch ∧
    (feedback_controller set k rs st cs sp imu).st.D_yaw = st.D_yaw := by
  have hidle := set_motors_idle_esc set hn
  by_cases hg : rs ≠ RunState.RUNNING ∧ st.arm_state = ArmState.ARMED
  · rw [tick_tip_pause set k rs st cs sp imu hg.1 hg.2 htip]
    exact ⟨rfl, hidle, rfl, rfl, rfl, rfl, rfl, rfl, rfl⟩
  · rw [tick_tip_no_pause set k rs st cs sp imu hg htip]
    exact ⟨rfl, hidle, rfl, rfl, rfl, rfl, rfl, rfl, rfl⟩

/-- C2 witness: a concrete armed tick with roll 5 far beyond the tip angle
disarms, idles both rotors and returns 0 with no control phase run. -/
theorem C2_tipover_disarms_and_idles_witness :
    (feedback_controller set0 k0 RunState.RUNNING st0 cs0 sp0 imuTip).st.arm_state =
      ArmState.DISARMED ∧
    (feedback_controller set0 k0 RunState.RUNNING st0 cs0 sp0 imuTip).esc =
      [(1, (-(1/10) : ℚ)), (2, (-(1/10) : ℚ))] ∧
    (feedback_controller set0 k0 RunState.RUNNING st0 cs0 sp0 imuTip).ret = 0 ∧
    (feedback_controller set0 k0 RunState.RUNNING st0 cs0 sp0 imuTip).st.loop_index = 5 ∧
    (feedback_controller set0 k0 RunState.RUNNING st0 cs0 sp0 imuTip).mixCalls = [] ∧
    (feedback_controller set0 k0 RunState.RUNNING st0 cs0 sp0 imuTip).log = none ∧
    (feedback_controller set0 k0 RunState.RUNNING st0 cs0 sp0 imuTip).st.D_roll = d0 ∧
    (feedback_controller set0 k0 RunState.RUNNING st0 cs0 sp0 imuTip).st.D_pitch = d0 ∧
    (feedback_controller set0 k0 RunState.RUNNING st0 cs0 sp0 imuTip).st.D_yaw = d0 := by
  have h := C2_tipover_disarms_and_idles set0 k0 RunState.RUNNING st0 cs0 sp0 imuTip
    (by norm_num [set0]) (Or.inl (by norm_num [imuTip, k0]))
  exact ⟨h.1, h.2.1.trans (by norm_num [set0, List.range_succ]), h.2.2.1, h.2.2.2.1,
    h.2.2.2.2.1, h.2.2.2.2.2.1, h.2.2.2.2.2.2.1, h.2.2.2.2.2.2.2.1, h.2.2.2.2.2.2.2.2⟩

/-- C3: On every armed-and-running tick without tipover, the value sent to
ESC channel i+1 lies in [0, 1], and it is exactly the [0, 1]-clamp of the
mixed motor value, applied as the very last step. -/
theorem C3_esc_values_clamped_to_unit (set : Settings) (k : Consts) (rs : RunState)
    (st : CtrlState) (cs : CState) (sp : Setpoint) (imu : Imu)
    (hrs : rs = RunState.RUNNING) (harm : st.arm_state = ArmState.ARMED)
    (h1 : ¬ |imu.y| > k.TIP_ANGLE) (h2 : ¬ |imu.x| > k.TIP_ANGLE)
    (i : ℕ) (hi : i < set.num_rotors) :
    0 ≤ ((feedback_controller set k rs st cs sp imu).esc.getD i (0, 0)).2 ∧
    ((feedback_controller set k rs st cs sp imu).esc.getD i (0, 0)).2 ≤ 1 ∧
    ((feedback_controller set k rs st cs sp imu).esc.getD i (0, 0)).2 =
      saturate_double
        ((march_all set k (est_st st imu) (est_cs st cs imu) sp).mot.getD i 0) 0 1 := by
  subst hrs
  rw [tick_run_armed set k st cs sp imu harm h1 h2]
  rw [armed_march_esc, getD_range_map _ _ i hi]
  have hb := saturate_double_mem
    ((march_all set k (est_st st imu) (est_cs st cs imu) sp).mot.getD i 0) 0 1
    (by norm_num)
  exact ⟨hb.1, hb.2, rfl⟩

/-- C3 witness: on a concrete armed tick, the value sent to channel 1 is
the clamp of the mixed motor value and lies in [0, 1]. -/
theorem C3_esc_values_clamped_to_unit_witness :
    0 ≤ ((feedback_controller set0 k0 RunState.RUNNING st0 cs0 sp0 imu0).esc.getD 0 (0, 0)).2 ∧
    ((feedback_controller set0 k0 RunState.RUNNING st0 cs0 sp0 imu0).esc.getD 0 (0, 0)).2 ≤ 1 ∧
    ((feedback_controller set0 k0 RunState.RUNNING st0 cs0 sp0 imu0).esc.getD 0 (0, 0)).2 =
      saturate_double
        ((march_all set0 k0 (est_st st0 imu0) (est_cs st0 cs0 imu0) sp0).mot.getD 0 0) 0 1 :=
  C3_esc_values_clamped_to_unit set0 k0 RunState.RUNNING st0 cs0 sp0 imu0 rfl rfl
    (by norm_num [imu0, k0]) (by norm_num [imu0, k0]) 0 (by norm_num [set0])

/-- C4: evaluation at the failing input: with zero spins and IMU yaw 1 the
source publishes core.yaw = +1 (line 208 omits the NED sign flip used by
the comment and the crossover detector), while the claimed formula
-imu_yaw_raw + num_spins·2π gives -1. -/
theorem C4_yaw_sign_flip_missing_eval :
    (feedback_controller set0 k0 RunState.RUNNING stD1 cs0 sp0 imu1).cs.yaw = 1 ∧
    -imu1.z + ((feedback_controller set0 k0 RunState.RUNNING stD1 cs0 sp0
        imu1).st.num_yaw_spins : ℚ) * TWO_PI = -1 ∧
    (1 : ℚ) ≠ -1 := by
  rw [tick_disarmed set0 k0 RunState.RUNNING stD1 cs0 sp0 imu1 rfl
    (by norm_num [imu1, k0]) (by norm_num [imu1, k0])]
  norm_num [est_cs, est_st, est_yaw, est_spins, stD1, stD, st0, imu1, PI, TWO_PI]

/-- C5: evaluation at the failing inputs: after a reset at IMU yaw 3, two
consecutive ticks at constant IMU yaw 3 publish core.yaw 3 and then
3 + 2π — a jump of 2π although the claimed bound is π + |Δ imu_yaw| = π
(the broken sign of line 208 makes the detector see a spurious crossover). -/
theorem C5_yaw_jump_eval :
    (feedback_controller set0 k0 RunState.RUNNING stD3 cs0 sp0 imu3).cs.yaw = 3 ∧
    (feedback_controller set0 k0 RunState.RUNNING
        (feedback_controller set0 k0 RunState.RUNNING stD3 cs0 sp0 imu3).st
        (feedback_controller set0 k0 RunState.RUNNING stD3 cs0 sp0 imu3).cs
        sp0 imu3).cs.yaw = 3 + 2 * PI ∧
    ¬ (|(3 + 2 * PI) - (3 : ℚ)| ≤ PI + |imu3.z - imu3.z|) := by
  refine ⟨?_, ?_, ?_⟩
  · rw [tick_disarmed set0 k0 RunState.RUNNING stD3 cs0 sp0 imu3 rfl
      (by norm_num [imu3, k0]) (by norm_num [imu3, k0])]
    norm_num [est_cs, est_yaw, est_spins, stD3, stD, st0, imu3, PI, TWO_PI]
  · rw [tick_disarmed set0 k0 RunState.RUNNING stD3 cs0 sp0 imu3 rfl
      (by norm_num [imu3, k0]) (by norm_num [imu3, k0])]
    rw [tick_disarmed set0 k0 RunState.RUNNING _ _ sp0 imu3 rfl
      (by norm_num [imu3, k0]) (by norm_num [imu3, k0])]
    norm_num [est_cs, est_st, est_yaw, est_spins, dtoi, stD3, stD, st0, imu3, PI, TWO_PI]
  · have habs : |(3 + 2 * PI) - (3 : ℚ)| = 2 * PI := by
      rw [abs_of_pos (by norm_num [PI])]
      ring
    rw [habs]
    norm_num [imu3, PI]

/-- C6: counterexample: on a concrete armed tick (Z throttle -1/2, throttle
mixing share -2) the source writes core motor 0 as the pre-clamp value 2,
which is outside [0, 1]. -/
theorem C6_counterexample_core_motors :
    ¬ ((feedback_controller set0 k0 RunState.RUNNING st0 cs0 sp0 imu0).cs.m.getD 0 0 ≤ 1) := by
  rw [tick_run_armed set0 k0 st0 cs0 sp0 imu0 rfl (by norm_num [imu0, k0])
    (by norm_num [imu0, k0])]
  norm_num [armed_march_cs_m, march_all, sixdof_march, pre6dof, rpy_march, thr_mot, thr_u,
    add_mixed_input, saturate_double, setu, mix0, set0, k0, sp0, cs0, est_cs, est_st, imu0,
    List.range_succ]

/-- C6 (amended): on every armed-and-running tick without tipover,
core.motors[i] records the mixed motor value before the final saturation
(so it may lie outside [0, 1]), and the value sent to ESC channel i+1 is
exactly core.motors[i] clamped to [0, 1]. -/
theorem C6_core_motors_record_preclamp (set : Settings) (k : Consts) (rs : RunState)
    (st : CtrlState) (cs : CState) (sp : Setpoint) (imu : Imu)
    (hrs : rs = RunState.RUNNING) (harm : st.arm_state = ArmState.ARMED)
    (h1 : ¬ |imu.y| > k.TIP_ANGLE) (h2 : ¬ |imu.x| > k.TIP_ANGLE)
    (i : ℕ) (hi : i < set.num_rotors) :
    (feedback_controller set k rs st cs sp imu).cs.m.getD i 0 =
      (march_all set k (est_st st imu) (est_cs st cs imu) sp).mot.getD i 0 ∧
    (feedback_controller set k rs st cs sp imu).esc.getD i (0, 0) =
      (i + 1,
        saturate_double ((feedback_controller set k rs st cs sp imu).cs.m.getD i 0) 0 1) := by
  subst hrs
  rw [tick_run_armed set k st cs sp imu harm h1 h2]
  have hlen := march_all_mot_length set k (est_st st imu) (est_cs st cs imu) sp
  have hm : (armed_march set k (est_st st imu) (est_cs st cs imu) sp).cs.m.getD i 0 =
      (march_all set k (est_st st imu) (est_cs st cs imu) sp).mot.getD i 0 := by
    rw [armed_march_cs_m]
    exact getD_append_left _ _ i 0 (by rw [hlen]; exact hi)
  refine ⟨hm, ?_⟩
  rw [armed_march_esc, getD_range_map _ _ i hi, hm]

/-- C6 witness: the amended relation at rotor 0 of a concrete armed tick. -/
theorem C6_core_motors_record_preclamp_witness :
    (feedback_controller set0 k0 RunState.RUNNING st0 cs0 sp0 imu0).cs.m.getD 0 0 =
      (march_all set0 k0 (est_st st0 imu0) (est_cs st0 cs0 imu0) sp0).mot.getD 0 0 ∧
    (feedback_controller set0 k0 RunState.RUNNING st0 cs0 sp0 imu0).esc.getD 0 (0, 0) =
      (0 + 1,
        saturate_double
          ((feedback_controller set0 k0 RunState.RUNNING st0 cs0 sp0 imu0).cs.m.getD 0 0)
          0 1) :=
  C6_core_motors_record_preclamp set0 k0 RunState.RUNNING st0 cs0 sp0 imu0 rfl rfl
    (by norm_num [imu0, k0]) (by norm_num [imu0, k0]) 0 (by norm_num [set0])

/-- C7: counterexample: a disarmed tick (idle path) leaves loop_index at 5
instead of advancing it to 6. -/
theorem C7_counterexample_loop_index :
    ¬ ((feedback_controller set0 k0 RunState.RUNNING stD cs0 sp0 imu0).st.loop_index =
        stD.loop_index + 1) := by
  rw [tick_disarmed set0 k0 RunState.RUNNING stD cs0 sp0 imu0 rfl
    (by norm_num [imu0, k0]) (by norm_num [imu0, k0])]
  simp [est_st]

/-- C7 (amended): loop_index advances by exactly 1 on every tick that runs
the armed control path (RUNNING, ARMED, no tipover), and is unchanged on
every tick that early-returns (tipover, not RUNNING, or DISARMED). -/
theorem C7_loop_index_only_armed (set : Settings) (k : Consts) (rs : RunState)
    (st : CtrlState) (cs : CState) (sp : Setpoint) (imu : Imu) :
    ((rs = RunState.RUNNING ∧ st.arm_state = ArmState.ARMED ∧
        ¬ |imu.y| > k.TIP_ANGLE ∧ ¬ |imu.x| > k.TIP_ANGLE) →
      (feedback_controller set k rs st cs sp imu).st.loop_index = st.loop_index + 1) ∧
    (¬ (rs = RunState.RUNNING ∧ st.arm_state = ArmState.ARMED ∧
        ¬ |imu.y| > k.TIP_ANGLE ∧ ¬ |imu.x| > k.TIP_ANGLE) →
      (feedback_controller set k rs st cs sp imu).st.loop_index = st.loop_index) := by
  constructor
  · rintro ⟨hrs, harm, hy, hx⟩
    subst hrs
    rw [tick_run_armed set k st cs sp imu harm hy hx]
    rfl
  · intro h
    by_cases htip : |imu.y| > k.TIP_ANGLE ∨ |imu.x| > k.TIP_ANGLE
    · by_cases hg : rs ≠ RunState.RUNNING ∧ st.arm_state = ArmState.ARMED
      · rw [tick_tip_pause set k rs st cs sp imu hg.1 hg.2 htip]
        rfl
      · rw [tick_tip_no_pause set k rs st cs sp imu hg htip]
        rfl
    · push_neg at htip
      obtain ⟨hy, hx⟩ := htip
      by_cases hrs : rs = RunState.RUNNING
      · cases hA : st.arm_state with
        | ARMED => exact absurd ⟨hrs, hA, not_lt.mpr hy, not_lt.mpr hx⟩ h
        | DISARMED =>
            rw [tick_disarmed set k rs st cs sp imu hA (not_lt.mpr hy) (not_lt.mpr hx)]
            rfl
      · cases hA : st.arm_state with
        | ARMED =>
            rw [tick_paused_armed set k rs st cs sp imu hrs hA (not_lt.mpr hy)
              (not_lt.mpr hx)]
            rfl
        | DISARMED =>
            rw [tick_disarmed set k rs st cs sp imu hA (not_lt.mpr hy) (not_lt.mpr hx)]
            rfl

/-- C7 witness: a concrete armed tick advances loop_index from 5 to 6. -/
theorem C7_loop_index_only_armed_witness :
    (feedback_controller set0 k0 RunState.RUNNING st0 cs0 sp0 imu0).st.loop_index = 5 + 1 :=
  (C7_loop_index_only_armed set0 k0 RunState.RUNNING st0 cs0 sp0 imu0).1
    ⟨rfl, rfl, by norm_num [imu0, k0], by norm_num [imu0, k0]⟩

/-- C8: on an armed-and-running tick with attitude control enabled and a
nonzero nominal voltage, the gain-scheduling step leaves each axis gain at
gain_orig·v_nominal/v_batt: exactly gain_orig when v_batt = v_nominal, and
exactly 2·gain_orig when v_batt = v_nominal/2. -/
theorem C8_battery_gain_scheduling (set : Settings) (k : Consts) (rs : RunState)
    (st : CtrlState) (cs : CState) (sp : Setpoint) (imu : Imu)
    (hrs : rs = RunState.RUNNING) (harm : st.arm_state = ArmState.ARMED)
    (h1 : ¬ |imu.y| > k.TIP_ANGLE) (h2 : ¬ |imu.x| > k.TIP_ANGLE)
    (hrpy : sp.en_rpy_ctrl = true) (hv : set.v_nominal ≠ 0) :
    (cs.v_batt = set.v_nominal →
      (feedback_controller set k rs st cs sp imu).st.D_roll.gain = st.D_roll_gain_orig ∧
      (feedback_controller set k rs st cs sp imu).st.D_pitch.gain = st.D_pitch_gain_orig ∧
      (feedback_controller set k rs st cs sp imu).st.D_yaw.gain = st.D_yaw_gain_orig) ∧
    (cs.v_batt = set.v_nominal / 2 →
      (feedback_controller set k rs st cs sp imu).st.D_roll.gain =
        2 * st.D_roll_gain_orig ∧
      (feedback_controller set k rs st cs sp imu).st.D_pitch.gain =
        2 * st.D_pitch_gain_orig ∧
      (feedback_controller set k rs st cs sp imu).st.D_yaw.gain =
        2 * st.D_yaw_gain_orig) := by
  subst hrs
  rw [tick_run_armed set k st cs sp imu harm h1 h2]
  have hr : (armed_march set k (est_st st imu) (est_cs st cs imu) sp).st.D_roll.gain =
      st.D_roll_gain_orig * set.v_nominal / cs.v_batt := by
    rw [armed_march_st_D_roll, march_all_D_roll,
      pre6dof_D_roll_gain set k (est_st st imu) (est_cs st cs imu) sp hrpy]
    rfl
  have hp : (armed_march set k (est_st st imu) (est_cs st cs imu) sp).st.D_pitch.gain =
      st.D_pitch_gain_orig * set.v_nominal / cs.v_batt := by
    rw [armed_march_st_D_pitch, march_all_D_pitch,
      pre6dof_D_pitch_gain set k (est_st st imu) (est_cs st cs imu) sp hrpy]
    rfl
  have hy : (armed_march set k (est_st st imu) (est_cs st cs imu) sp).st.D_yaw.gain =
      st.D_yaw_gain_orig * set.v_nominal / cs.v_batt := by
    rw [armed_march_st_D_yaw, march_all_D_yaw,
      pre6dof_D_yaw_gain set k (est_st st imu) (est_cs st cs imu) sp hrpy]
    rfl
  constructor
  · intro hv1
    refine ⟨?_, ?_, ?_⟩
    · rw [hr, hv1, mul_div_assoc, div_self hv, mul_one]
    · rw [hp, hv1, mul_div_assoc, div_self hv, mul_one]
    · rw [hy, hv1, mul_div_assoc, div_self hv, mul_one]
  · intro hv2
    refine ⟨?_, ?_, ?_⟩
    · rw [hr, hv2]
      field_simp
      ring
    · rw [hp, hv2]
      field_simp
      ring
    · rw [hy, hv2]
      field_simp
      ring

/-- C8 witness: a concrete armed tick at v_batt = v_nominal = 11.1 leaves
the roll/pitch/yaw gains at their original values 3, 5 and 7. -/
theorem C8_battery_gain_scheduling_witness :
    (feedback_controller set0 k0 RunState.RUNNING st0 cs0 spR imu0).st.D_roll.gain =
      st0.D_roll_gain_orig ∧
    (feedback_controller set0 k0 RunState.RUNNING st0 cs0 spR imu0).st.D_pitch.gain =
      st0.D_pitch_gain_orig ∧
    (feedback_controller set0 k0 RunState.RUNNING st0 cs0 spR imu0).st.D_yaw.gain =
      st0.D_yaw_gain_orig :=
  (C8_battery_gain_scheduling set0 k0 RunState.RUNNING st0 cs0 spR imu0 rfl rfl
    (by norm_num [imu0, k0]) (by norm_num [imu0, k0]) rfl (by norm_num [set0])).1
    (by norm_num [cs0, set0])

/-- C9: arm_controller called while ARMED only emits a warning, changes no
state and returns the non-fatal code -1; called while DISARMED it flags
ARMED, resets the three compensators and the yaw unwrapper, re-initializes
the throttle-transition memory, emits the log-start (when logging is
enabled) and LED events, and returns 0. -/
theorem C9_arm_controller_contract (set : Settings) (k : Consts) (st : CtrlState)
    (imu : Imu) :
    (st.arm_state = ArmState.ARMED →
      arm_controller set k st imu = (st, [Event.warn], -1)) ∧
    (st.arm_state = ArmState.DISARMED →
      (arm_controller set k st imu).1.arm_state = ArmState.ARMED ∧
      (arm_controller set k st imu).1.D_roll = reset_filter st.D_roll ∧
      (arm_controller set k st imu).1.D_pitch = reset_filter st.D_pitch ∧
      (arm_controller set k st imu).1.D_yaw = reset_filter st.D_yaw ∧
      (arm_controller set k st imu).1.num_yaw_spins = 0 ∧
      (arm_controller set k st imu).1.last_usr_thr = k.MIN_THRUST_COMPONENT ∧
      (arm_controller set k st imu).2.1 =
        (if set.enable_logging then [Event.logStart] else []) ++
          [Event.led LedColor.RED false, Event.led LedColor.GREEN true] ∧
      (arm_controller set k st imu).2.2 = 0) := by
  constructor
  · intro h
    simp only [arm_controller, if_pos h]
  · intro h
    have h' : ¬ st.arm_state = ArmState.ARMED := by simp [h]
    simp [arm_controller, h', zero_out_controller]

/-- C9 witness: arming the concrete already-armed state is a pure warning
no-op returning -1. -/
theorem C9_arm_controller_contract_witness :
    arm_controller set0 k0 st0 imu0 = (st0, [Event.warn], -1) :=
  (C9_arm_controller_contract set0 k0 st0 imu0).1 rfl

/-- C10: on every armed-and-running 6dof tick without tipover, the lateral
inputs are crossed — u[VEC_Y] is the clamped sp.X_throttle and u[VEC_X]
the clamped sp.Y_throttle — and both are added to the motors through mixer
axis slot VEC_Y, so slot VEC_X never appears in the mixer-call trace,
whose last entry is (VEC_Y, u[VEC_X]). -/
theorem C10_lateral_axis_swap (set : Settings) (k : Consts) (rs : RunState)
    (st : CtrlState) (cs : CState) (sp : Setpoint) (imu : Imu)
    (hrs : rs = RunState.RUNNING) (harm : st.arm_state = ArmState.ARMED)
    (h1 : ¬ |imu.y| > k.TIP_ANGLE) (h2 : ¬ |imu.x| > k.TIP_ANGLE)
    (h6 : sp.en_6dof = true) :
    (feedback_controller set k rs st cs sp imu).st.u Axis.Y =
      sixdof_uY set k sp (pre6dof set k (est_st st imu) (est_cs st cs imu) sp).mot ∧
    (feedback_controller set k rs st cs sp imu).st.u Axis.X =
      sixdof_uX set k sp
        (add_mixed_input set.mix
          (sixdof_uY set k sp (pre6dof set k (est_st st imu) (est_cs st cs imu) sp).mot)
          Axis.Y (pre6dof set k (est_st st imu) (est_cs st cs imu) sp).mot) ∧
    (feedback_controller set k rs st cs sp imu).mixCalls.map Prod.fst =
      (if sp.en_rpy_ctrl then
        [Axis.THR, Axis.ROLL, Axis.PITCH, Axis.YAW, Axis.Y, Axis.Y]
       else [Axis.THR, Axis.Y, Axis.Y]) ∧
    Axis.X ∉ (feedback_controller set k rs st cs sp imu).mixCalls.map Prod.fst ∧
    (feedback_controller set k rs st cs sp imu).mixCalls.getLast? =
      some (Axis.Y, (feedback_controller set k rs st cs sp imu).st.u Axis.X) := by
  subst hrs
  rw [tick_run_armed set k st cs sp imu harm h1 h2]
  have hu : (armed_march set k (est_st st imu) (est_cs st cs imu) sp).st.u =
      setu (setu (pre6dof set k (est_st st imu) (est_cs st cs imu) sp).u Axis.Y
          (sixdof_uY set k sp (pre6dof set k (est_st st imu) (est_cs st cs imu) sp).mot))
        Axis.X
        (sixdof_uX set k sp
          (add_mixed_input set.mix
            (sixdof_uY set k sp (pre6dof set k (est_st st imu) (est_cs st cs imu) sp).mot)
            Axis.Y (pre6dof set k (est_st st imu) (est_cs st cs imu) sp).mot)) := by
    rw [armed_march_st_u, march_all_u]
    simp [sixdof_march, h6]
  have hcalls : (armed_march set k (est_st st imu) (est_cs st cs imu) sp).mixCalls =
      (pre6dof set k (est_st st imu) (est_cs st cs imu) sp).calls ++
        [(Axis.Y,
           sixdof_uY set k sp (pre6dof set k (est_st st imu) (est_cs st cs imu) sp).mot),
         (Axis.Y,
           sixdof_uX set k sp
             (add_mixed_input set.mix
               (sixdof_uY set k sp
                 (pre6dof set k (est_st st imu) (est_cs st cs imu) sp).mot)
               Axis.Y (pre6dof set k (est_st st imu) (est_cs st cs imu) sp).mot))] := by
    rw [armed_march_mixCalls, march_all_calls]
    simp [sixdof_march, h6]
  refine ⟨?_, ?_, ?_, ?_, ?_⟩
  · rw [hu]
    simp [setu]
  · rw [hu]
    simp [setu]
  · rw [hcalls, List.map_append, pre6dof_calls_fst]
    cases hrpy : sp.en_rpy_ctrl <;> simp [hrpy]
  · rw [hcalls, List.map_append, pre6dof_calls_fst]
    cases hrpy : sp.en_rpy_ctrl <;> simp [hrpy]
  · rw [hcalls, hu, List.getLast?_append_cons]
    simp [setu]

/-- C10 witness: the crossed lateral wiring on a concrete armed 6dof tick. -/
theorem C10_lateral_axis_swap_witness :
    (feedback_controller set0 k0 RunState.RUNNING st0 cs0 sp6 imu0).st.u Axis.Y =
      sixdof_uY set0 k0 sp6 (pre6dof set0 k0 (est_st st0 imu0) (est_cs st0 cs0 imu0) sp6).mot ∧
    (feedback_controller set0 k0 RunState.RUNNING st0 cs0 sp6 imu0).st.u Axis.X =
      sixdof_uX set0 k0 sp6
        (add_mixed_input set0.mix
          (sixdof_uY set0 k0 sp6
            (pre6dof set0 k0 (est_st st0 imu0) (est_cs st0 cs0 imu0) sp6).mot)
          Axis.Y (pre6dof set0 k0 (est_st st0 imu0) (est_cs st0 cs0 imu0) sp6).mot) ∧
    (feedback_controller set0 k0 RunState.RUNNING st0 cs0 sp6 imu0).mixCalls.map Prod.fst =
      (if sp6.en_rpy_ctrl then
        [Axis.THR, Axis.ROLL, Axis.PITCH, Axis.YAW, Axis.Y, Axis.Y]
       else [Axis.THR, Axis.Y, Axis.Y]) ∧
    Axis.X ∉ (feedback_controller set0 k0 RunState.RUNNING st0 cs0 sp6 imu0).mixCalls.map
      Prod.fst ∧
    (feedback_controller set0 k0 RunState.RUNNING st0 cs0 sp6 imu0).mixCalls.getLast? =
      some (Axis.Y, (feedback_controller set0 k0 RunState.RUNNING st0 cs0 sp6 imu0).st.u
        Axis.X) :=
  C10_lateral_axis_swap set0 k0 RunState.RUNNING st0 cs0 sp6 imu0 rfl rfl
    (by norm_num [imu0, k0]) (by norm_num [imu0, k0]) rfl
